import Mathlib

/-!
Verification of the Computation Orchestration Gateway of the
TrafficOptimization repository against its specification.

The gateway exists in several Go revisions inside the repository:
`backend/main.go` (single hybrid runner), two revisions concatenated in
the unnamed server source (referred to below as revision A, the
two-runner server with graceful per-item skipping, and revision B, the
two-runner server with routed-shape handling), and a further revision
embedded after the QASM preamble of `backend/first_generated_circuit.qasm`
(referred to as revision Q, which sums per-route quantum times).

Decoded JSON values (Go `any` after `encoding/json.Unmarshal`) are
modelled by `JVal`; Go's `float64` is modelled by `ℚ` (exact for the
additions, multiplications by 1000 and divisions performed here); Go's
conversion `int(f)`, which truncates toward zero, is `truncInt`.
Failed type assertions that make the Go code skip an item are modelled
with `Option`; type assertions whose failure panics are also modelled as
`Option.none` (the request dies either way).
-/

/-- JSON value as produced by Go's `encoding/json` into `any`:
nil, bool, float64, string, `[]any` or `map[string]any`. -/
inductive JVal where
  | null
  | jbool (b : Bool)
  | num (q : ℚ)
  | str (s : String)
  | arr (elems : List JVal)
  | obj (fields : List (String × JVal))

/-- A decoded JSON object (`map[string]any`), as an association list. -/
abbrev JObj := List (String × JVal)

/-- Go map read `m["k"]`: the stored value, or the nil interface
(`JVal.null`) when the key is absent. -/
def jlookup : JObj → String → JVal
  | [], _ => .null
  | (k, v) :: rest, key => if k = key then v else jlookup rest key

/-- Go type assertion `v.(map[string]any)` with its `ok` flag. -/
def asObj : JVal → Option JObj
  | .obj f => some f
  | _ => none

/-- Go type assertion `v.([]any)` with its `ok` flag. -/
def asArr : JVal → Option (List JVal)
  | .arr xs => some xs
  | _ => none

/-- Go type assertion `v.(float64)` with its `ok` flag. -/
def asNum : JVal → Option ℚ
  | .num q => some q
  | _ => none

/-- Go conversion `int(f)` on a float64: truncation toward zero. -/
def truncInt (q : ℚ) : Int := if 0 ≤ q then ⌊q⌋ else ⌈q⌉

/-- Source `floatToInt(f float64) int { return int(f) }` (revision B). -/
def floatToInt (f : ℚ) : Int := truncInt f

/-- Source `intFromAny`: a decoded JSON number is truncated to int; every
non-numeric value (including a missing key's nil) yields 0. -/
def intFromAny (a : JVal) : Int :=
  match a with
  | .num q => truncInt q
  | _ => 0

/-- Source `floatFromAny` (revision Q): a decoded JSON number is returned
as a float; every non-numeric value yields 0. -/
def floatFromAny (a : JVal) : ℚ :=
  match a with
  | .num q => q
  | _ => 0

/-- Source `speedup(baseMs, testMs int) float64`: 0 when `testMs <= 0`,
otherwise `float64(baseMs) / float64(testMs)`. Identical in all
revisions. -/
def speedup (baseMs testMs : Int) : ℚ :=
  if testMs ≤ 0 then 0 else (baseMs : ℚ) / (testMs : ℚ)

/-- One emitted `perGraph` element of revision A's comparison loop:
graph index, the two metric maps, and the derived compare block
(`delta_ms` and `quantum_speedup`). -/
structure GraphEntry where
  graphIndex : JVal
  classical : JObj
  quantum : JObj
  deltaMs : Int
  quantumSpeedup : ℚ
  mireaExecution : Option JObj

/-- Revision A's loop body for one index: the classical and quantum
items must both carry a `metrics` object containing an `enhanced`
object, otherwise the item is skipped (`continue` after the failed
type assertion); on success the compare block is computed from the two
`opt_time_ms` fields. -/
def perGraphEntry (c q : JObj) : Option GraphEntry :=
  (asObj (jlookup c "metrics")).bind fun cm =>
  (asObj (jlookup q "metrics")).bind fun qm =>
  (asObj (jlookup cm "enhanced")).bind fun ce =>
  (asObj (jlookup qm "enhanced")).map fun qe =>
    let ceMs := intFromAny (jlookup ce "opt_time_ms")
    let qeMs := intFromAny (jlookup qe "opt_time_ms")
    { graphIndex := jlookup c "graph_index"
      classical := cm
      quantum := qm
      deltaMs := qeMs - ceMs
      quantumSpeedup := speedup ceMs qeMs
      mireaExecution := asObj (jlookup q "mirea_execution") }

/-- Revision A's `perGraph` construction: iterate `i` from 0 to
`min(len(rClass.Results), len(rQuant.Results))`, appending the entries
that survive the type assertions. -/
def buildPerGraph (cs qs : List JObj) : List GraphEntry :=
  (List.range (min cs.length qs.length)).filterMap fun i =>
    perGraphEntry (cs.getD i []) (qs.getD i [])

/-- The item indices that actually appear in the final envelope:
positions below the common length whose entry is emitted. -/
def emittedIndices (cs qs : List JObj) : List Nat :=
  (List.range (min cs.length qs.length)).filter fun i =>
    (perGraphEntry (cs.getD i []) (qs.getD i [])).isSome

/-- Classical result list whose single item has a malformed `metrics`
field (a number where an object is required). -/
def csMalformedMetrics : List JObj := [[("metrics", JVal.num 3)]]

/-- Quantum result list whose single item is fully well-formed. -/
def qsWellFormed : List JObj :=
  [[("metrics", JVal.obj [("enhanced", JVal.obj [("opt_time_ms", JVal.num 5)])])]]

/-- Well-formed classical item reporting `opt_time_ms` of 100. -/
def cPair100 : JObj :=
  [("graph_index", JVal.num 0),
   ("metrics", JVal.obj [("enhanced", JVal.obj [("opt_time_ms", JVal.num 100)])])]

/-- Well-formed quantum item reporting `opt_time_ms` of 50. -/
def qPair50 : JObj :=
  [("metrics", JVal.obj [("enhanced", JVal.obj [("opt_time_ms", JVal.num 50)])])]

/-- The entry revision A's loop produces for `cPair100` and `qPair50`. -/
def cqEntry : GraphEntry :=
  { graphIndex := JVal.num 0
    classical := [("enhanced", JVal.obj [("opt_time_ms", JVal.num 100)])]
    quantum := [("enhanced", JVal.obj [("opt_time_ms", JVal.num 50)])]
    deltaMs := intFromAny (JVal.num 50) - intFromAny (JVal.num 100)
    quantumSpeedup := speedup (intFromAny (JVal.num 100)) (intFromAny (JVal.num 50))
    mireaExecution := none }

/-- Revision B's quantum-metrics derivation: probe for a `stats` object;
when present, build the backward-compatible `enhanced` block whose
`opt_time_ms` is `floatToInt(stats["pure_quantum_time"].(float64) * 1000)`
(a failed float64 assertion panics the request, modelled as `none`);
when absent, fall back to the item's own `metrics` object. -/
def quantumMetrics (q : JObj) : Option JObj :=
  match asObj (jlookup q "stats") with
  | some stats =>
      (asNum (jlookup stats "pure_quantum_time")).map fun t =>
        [("enhanced", JVal.obj
            [("opt_time_ms", JVal.num ((floatToInt (t * 1000) : ℤ) : ℚ)),
             ("successful_routes", jlookup stats "successful"),
             ("total_routes", jlookup stats "total_routes"),
             ("average_cost", JVal.num 0)])]
  | none => asObj (jlookup q "metrics")

/-- The aggregate elapsed time revision B's loop then extracts:
`intFromAny(qm["enhanced"].(map[string]any)["opt_time_ms"])`. -/
def derivedOptTimeMs (q : JObj) : Option Int :=
  (quantumMetrics q).bind fun qm =>
  (asObj (jlookup qm "enhanced")).map fun qe => intFromAny (jlookup qe "opt_time_ms")

/-- One iteration of revision Q's accumulation over `q["routes"]`:
add `floatFromAny(route["quantum"]["time"])` when the route and its
`quantum` field are objects, otherwise leave the accumulator unchanged. -/
def routeStep (acc : ℚ) (route : JVal) : ℚ :=
  match asObj route with
  | some rm =>
    match asObj (jlookup rm "quantum") with
    | some qm => acc + floatFromAny (jlookup qm "time")
    | none => acc
  | none => acc

/-- Revision Q's `qTimeTotal`: fold of `routeStep` over the route list,
starting from 0. -/
def quantumTimeTotal (routes : List JVal) : ℚ := routes.foldl routeStep 0

/-- Revision Q's `qeMs := int(qTimeTotal * 1000)`, where a failed
`q["routes"].([]any)` assertion leaves a nil (empty) slice. -/
def qeMsFromRoutes (q : JObj) : Int :=
  floatToInt (quantumTimeTotal ((asArr (jlookup q "routes")).getD []) * 1000)

/-- A route object carrying a quantum elapsed time of `t` seconds. -/
def mkRoute (t : ℚ) : JVal :=
  JVal.obj [("quantum", JVal.obj [("time", JVal.num t)])]

/-- A routed-shape quantum item: three routes of 0.01 s, 0.02 s and
0.005 s, and a `stats` block whose `pure_quantum_time` is 0.07 s (so the
stats field disagrees with the per-route sum of 0.035 s). -/
def routedExample : JObj :=
  [("stats", JVal.obj [("pure_quantum_time", JVal.num 0.07),
      ("successful", JVal.num 3), ("total_routes", JVal.num 3)]),
   ("routes", JVal.arr [mkRoute 0.01, mkRoute 0.02, mkRoute 0.005])]

/-- An inbound `/process` request, reduced to the facts the handler's
validation sequence inspects. `formParseOk` stands for the success of
`r.ParseMultipartForm(64 << 20)`, whose argument is Go's in-memory
spill threshold for file parts, not a size limit. -/
structure UploadRequest where
  methodPost : Bool
  formParseOk : Bool
  fileFieldPresent : Bool
  filename : String
  sizeBytes : Nat

/-- Outcome of the validation prefix of `process`. -/
inductive IntakeResult where
  | errMethodNotAllowed
  | errBadForm
  | errFileRequired
  | errBadExtension
  | accepted
  deriving DecidableEq

/-- Scan of the reversed character list implementing Go's
`filepath.Ext`: the suffix beginning at the final dot, empty when a
path separator or the start of the name is reached first. -/
def goExt : List Char → List Char → String
  | [], _ => ""
  | c :: rest, acc =>
      if c = '/' then ""
      else if c = '.' then String.mk ('.' :: acc)
      else goExt rest (c :: acc)

/-- Go `filepath.Ext` on the uploaded filename. -/
def filepathExt (s : String) : String := goExt s.data.reverse []

/-- The validation sequence of `process` in source order: method check,
multipart parse, file-field presence, extension membership in
{.csv, .txt}. No comparison against the payload size occurs anywhere. -/
def intakeCheck (r : UploadRequest) : IntakeResult :=
  if !r.methodPost then .errMethodNotAllowed
  else if !r.formParseOk then .errBadForm
  else if !r.fileFieldPresent then .errFileRequired
  else if filepathExt r.filename ≠ ".csv" ∧ filepathExt r.filename ≠ ".txt" then
    .errBadExtension
  else .accepted

/-- Side effects of `process` that follow the validation prefix. -/
inductive ProcessEffect where
  | tempWrite
  | solverLaunch
  deriving DecidableEq

/-- Effects performed by `process`: the temporary-directory write and the
solver subprocess launches happen exactly when validation accepted. -/
def processEffects (r : UploadRequest) : List ProcessEffect :=
  match intakeCheck r with
  | .accepted => [.tempWrite, .solverLaunch]
  | _ => []

/-- A POST of a well-formed multipart body carrying a 70 MiB `.csv`. -/
def bigUpload : UploadRequest :=
  { methodPost := true
    formParseOk := true
    fileFieldPresent := true
    filename := "data.csv"
    sizeBytes := 70 * 1024 * 1024 }

/-- Source `csvRecord`: display name and byte content of an artifact. -/
structure csvRecord where
  Name : String
  Data : List Nat
  deriving DecidableEq

/-- The process-lifetime artifact store (`var store sync.Map`), as an
association list in which the most recent `Store` for a key shadows
older entries — the observable map semantics of `sync.Map`. -/
abbrev ArtifactStore := List (String × csvRecord)

/-- Source `store.Store(id, rec)`. -/
def storeStore (s : ArtifactStore) (k : String) (v : csvRecord) : ArtifactStore :=
  (k, v) :: s

/-- Source `store.Load(id)` with its `ok` flag. -/
def storeLoad (s : ArtifactStore) (k : String) : Option csvRecord :=
  (s.find? fun p => p.1 == k).map Prod.snd

/-- Source `genID() { return fmt.Sprintf("%d", time.Now().UnixNano()) }`:
the handle is the decimal rendering of the current wall-clock nanosecond
reading and of nothing else. -/
def genID (nowUnixNano : Int) : String := toString nowUnixNano

/-- Source `safeName(s, def string)`. -/
def safeName (s dflt : String) : String := if s = "" then dflt else s

/-- Result of the `/download` handler of `backend/main.go`. -/
inductive DownloadResult where
  | badReq
  | notFound
  | okFile (name : String) (data : List Nat)
  deriving DecidableEq

/-- The `/download` handler of `backend/main.go`: 400 when the `id`
query parameter is empty, 404 when the store has no entry for it,
otherwise the stored name and bytes. -/
def download (s : ArtifactStore) (id : String) : DownloadResult :=
  if id = "" then .badReq
  else
    match storeLoad s id with
    | none => .notFound
    | some rec => .okFile rec.Name rec.Data

/-- The CSV-registration step of `backend/main.go`'s `process`:
`submissionID` starts empty; only when `CSVBase64` is nonempty and its
base64 decoding (`decoded`, the stdlib result) succeeds is a fresh
handle generated and the record stored. Returns the updated store and
the `submissionID` placed in the response. -/
def storeSubmission (s : ArtifactStore) (csvB64 : String) (decoded : Option (List Nat))
    (csvName : String) (now : Int) : ArtifactStore × String :=
  if csvB64 = "" then (s, "")
  else
    match decoded with
    | some b =>
        let id := genID now
        (storeStore s id { Name := safeName csvName "submission.csv", Data := b }, id)
    | none => (s, "")

/-- The `downloads` map of the final `/process` response of
`backend/main.go`: the literal `{"submission_csv": submissionID}`. -/
def downloadsMap (submissionID : String) : List (String × String) :=
  [("submission_csv", submissionID)]

/-- Observable result of one solver subprocess: the bytes it wrote to
its primary channel (stdout), the bytes it wrote to its diagnostic
channel (stderr), and whether `cmd.Run`/`cmd.Wait` reported success. -/
structure PyExec where
  stdoutData : List Nat
  stderrData : List Nat
  exitOk : Bool

/-- Source `runPython` of `backend/main.go`: stdout and stderr go to
separate builders; stderr is only logged; on success the returned
payload is the stdout bytes and on failure no payload is returned. -/
def runPythonHybrid (e : PyExec) : Option (List Nat) :=
  if e.exitOk then some e.stdoutData else none

/-- Source `runPython` of revisions A and B: the returned payload is the
stdout bytes (via a dedicated buffer in A, via `cmd.StdoutPipe()` in B,
where stderr is not read at all), paired with the run's success flag. -/
def runPythonSplit (e : PyExec) : List Nat × Bool := (e.stdoutData, e.exitOk)

/-- External response chosen by the solver-and-decode phase of
revision B's `process`, in source order: a failed classical run aborts
with HTTP 400 and the classical stdout as body; then a failed quantum
run aborts with HTTP 400 and the quantum stdout; then a classical or
quantum JSON decode failure aborts with HTTP 500 and a fixed message. -/
inductive HttpReply where
  | reply (status : Nat) (body : String)
  | proceed
  deriving DecidableEq

/-- True exactly for HTTP 4xx statuses. -/
def isClientError (status : Nat) : Bool := 400 ≤ status && status < 500

/-- The failure-mapping of revision B's `process` (lines running the two
backends and decoding their output). -/
def processBackendPhase (outClass : String) (classRunOk : Bool) (outQuant : String)
    (quantRunOk : Bool) (classParseOk quantParseOk : Bool) : HttpReply :=
  if !classRunOk then .reply 400 outClass
  else if !quantRunOk then .reply 400 outQuant
  else if !classParseOk then .reply 500 "Failed to parse classical results"
  else if !quantParseOk then .reply 500 "Failed to parse quantum results"
  else .proceed

/-- The failure-mapping of `backend/main.go`'s `process`: a failed run
aborts with HTTP 500 and the fixed body "Python script failed"; a decode
failure aborts with HTTP 500 and a fixed parse message. -/
def processBackendPhaseHybrid (runOk parseOk : Bool) : HttpReply :=
  if !runOk then .reply 500 "Python script failed"
  else if !parseOk then .reply 500 "Failed to parse python results"
  else .proceed

/-! ## Supporting lemmas -/

/-- Truncation toward zero is the identity on integers. -/
theorem truncInt_intCast (n : ℤ) : truncInt (n : ℚ) = n := by
  unfold truncInt
  split <;> simp

/-- Evaluation helper: `intFromAny` of a number known to be integral. -/
theorem intFromAny_num (q : ℚ) (n : ℤ) (h : q = (n : ℚ)) :
    intFromAny (JVal.num q) = n := by
  rw [intFromAny, h, truncInt_intCast]

/-- A `filterMap` only consumes the elements its function accepts. -/
theorem filterMap_eq_filterMap_filter {α β : Type} (f : α → Option β) (l : List α) :
    l.filterMap f = (l.filter fun a => (f a).isSome).filterMap f := by
  induction l with
  | nil => rfl
  | cons a l ih =>
    by_cases h : (f a).isSome
    · cases hfa : f a with
      | none => rw [hfa] at h; simp at h
      | some b => simp [List.filterMap_cons, List.filter_cons, h, hfa, ih]
    · cases hfa : f a with
      | none => simp [List.filterMap_cons, List.filter_cons, h, hfa, ih]
      | some b => rw [hfa] at h; simp at h

/-- The envelope list is exactly the entries of the emitted indices. -/
theorem buildPerGraph_eq_emitted (cs qs : List JObj) :
    buildPerGraph cs qs =
      (emittedIndices cs qs).filterMap fun i =>
        perGraphEntry (cs.getD i []) (qs.getD i []) := by
  unfold buildPerGraph emittedIndices
  exact filterMap_eq_filterMap_filter _ _

/-- A `Store` under a key makes that key's `Load` return the new record. -/
theorem storeLoad_storeStore_self (s : ArtifactStore) (k : String) (v : csvRecord) :
    storeLoad (storeStore s k v) k = some v := by
  simp [storeLoad, storeStore, List.find?_cons_of_pos]

/-- A `Store` under one key leaves every other key's `Load` unchanged. -/
theorem storeLoad_storeStore_other (s : ArtifactStore) (k q : String) (v : csvRecord)
    (h : q ≠ k) : storeLoad (storeStore s k v) q = storeLoad s q := by
  simp only [storeLoad, storeStore]
  rw [List.find?_cons_of_neg _ (by simpa using fun hk => h hk.symm)]

/-- Folding `routeStep` over constructed routes adds up their times. -/
theorem foldl_routeStep (ts : List ℚ) : ∀ acc : ℚ,
    List.foldl routeStep acc (ts.map mkRoute) = acc + ts.sum := by
  induction ts with
  | nil => intro acc; simp
  | cons t ts ih =>
    intro acc
    have hstep : routeStep acc (mkRoute t) = acc + t := by
      simp [routeStep, mkRoute, asObj, jlookup, floatFromAny]
    simp only [List.map_cons, List.foldl_cons, hstep, List.sum_cons, ih]
    ring

/-- Revision Q's accumulated route time is the sum of the route times. -/
theorem quantumTimeTotal_mkRoutes (ts : List ℚ) :
    quantumTimeTotal (ts.map mkRoute) = ts.sum := by
  simpa using foldl_routeStep ts 0

/-! ## C1: speedup guard -/

/-- C1, counterexample: the claim asserts the speedup is always
nonnegative, but `speedup` applied to a negative classical time and a
positive quantum time — both representable in the backends' decoded
output, which is not constrained to nonnegative times — is negative. -/
theorem speedup_negative_base_counterexample :
    speedup (-100) 50 = -2 ∧ ¬ 0 ≤ speedup (-100) 50 := by
  constructor <;> norm_num [speedup]

/-- C1 (amended): `speedup` equals `classical / quantum` when the quantum
time is positive, equals exactly 0 when the quantum time is zero or
negative (never raising and never producing a division by zero), and is
nonnegative whenever the classical time is nonnegative. -/
theorem speedup_guard_amended : ∀ baseMs testMs : Int,
    (0 < testMs → speedup baseMs testMs = (baseMs : ℚ) / (testMs : ℚ)) ∧
    (testMs ≤ 0 → speedup baseMs testMs = 0) ∧
    (0 ≤ baseMs → 0 ≤ speedup baseMs testMs) := by
  intro baseMs testMs
  refine ⟨fun ht => ?_, fun ht => ?_, fun hb => ?_⟩
  · rw [speedup, if_neg (not_le.mpr ht)]
  · rw [speedup, if_pos ht]
  · rw [speedup]
    split
    · exact le_refl 0
    · next h =>
        have ht : (0 : ℚ) ≤ (testMs : ℚ) := by
          exact_mod_cast le_of_lt (lt_of_not_le h)
        exact div_nonneg (by exact_mod_cast hb) ht

/-- C1, witness: the amended theorem at classical 100 ms, quantum 50 ms
and at quantum 0 ms. -/
theorem speedup_guard_amended_witness :
    speedup 100 50 = (100 : ℚ) / (50 : ℚ) ∧ speedup 100 0 = 0 ∧ 0 ≤ speedup 100 50 :=
  ⟨(speedup_guard_amended 100 50).1 (by norm_num),
   (speedup_guard_amended 100 0).2.1 (by norm_num),
   (speedup_guard_amended 100 50).2.2 (by norm_num)⟩

/-! ## C2: routed-shape elapsed time -/

/-- C2, counterexample: on a routed-shape item whose three routes take
0.01 s, 0.02 s and 0.005 s (sum 35 ms) but whose `stats` block reports
`pure_quantum_time` of 0.07 s, revision B derives 70 ms — the stats
field converted to milliseconds, not the per-route sum of 35 ms the
claim asserts. -/
theorem routed_elapsed_time_counterexample :
    derivedOptTimeMs routedExample = some 70 ∧
    qeMsFromRoutes routedExample = 35 ∧ (70 : ℤ) ≠ 35 := by
  refine ⟨?_, ?_, by decide⟩
  · have h : floatToInt ((0.07 : ℚ) * 1000) = (70 : ℤ) := by
      show truncInt _ = _
      rw [show ((0.07 : ℚ) * 1000) = ((70 : ℤ) : ℚ) by norm_num, truncInt_intCast]
    simp [derivedOptTimeMs, quantumMetrics, routedExample, jlookup, asObj, asNum, h]
    exact intFromAny_num _ _ (by norm_num)
  · show floatToInt (quantumTimeTotal ((asArr (jlookup routedExample "routes")).getD []) * 1000) = 35
    rw [show (asArr (jlookup routedExample "routes")).getD [] =
        ([0.01, 0.02, 0.005] : List ℚ).map mkRoute from rfl]
    rw [quantumTimeTotal_mkRoutes]
    show truncInt _ = _
    rw [show (([0.01, 0.02, 0.005] : List ℚ).sum) * 1000 = ((35 : ℤ) : ℚ) by
      norm_num [List.sum_cons, List.sum_nil]]
    exact truncInt_intCast 35

/-- C2 (amended): in the routed shape, revision B derives the item's
aggregate elapsed time from the `stats` block's `pure_quantum_time`
field converted to milliseconds and truncated; revision Q derives it by
summing the per-route quantum times, so three routes of 0.01 s, 0.02 s
and 0.005 s yield exactly 35 ms there. -/
theorem routed_elapsed_time_amended :
    (∀ (q stats : JObj) (t : ℚ), asObj (jlookup q "stats") = some stats →
        asNum (jlookup stats "pure_quantum_time") = some t →
        derivedOptTimeMs q = some (floatToInt (t * 1000))) ∧
    (∀ ts : List ℚ, quantumTimeTotal (ts.map mkRoute) = ts.sum) ∧
    qeMsFromRoutes routedExample = 35 := by
  refine ⟨?_, quantumTimeTotal_mkRoutes, ?_⟩
  · intro q stats t h1 h2
    have hint : intFromAny (JVal.num ((floatToInt (t * 1000) : ℤ) : ℚ)) =
        floatToInt (t * 1000) := intFromAny_num _ _ rfl
    unfold derivedOptTimeMs quantumMetrics
    rw [h1]
    simp only [h2, Option.map_some', Option.some_bind]
    simp [jlookup, asObj, hint]
  · show floatToInt (quantumTimeTotal ((asArr (jlookup routedExample "routes")).getD []) * 1000) = 35
    rw [show (asArr (jlookup routedExample "routes")).getD [] =
        ([0.01, 0.02, 0.005] : List ℚ).map mkRoute from rfl]
    rw [quantumTimeTotal_mkRoutes]
    show truncInt _ = _
    rw [show (([0.01, 0.02, 0.005] : List ℚ).sum) * 1000 = ((35 : ℤ) : ℚ) by
      norm_num [List.sum_cons, List.sum_nil]]
    exact truncInt_intCast 35

/-- C2, witness: the amended theorem's stats-field clause evaluated on
the concrete routed item. -/
theorem routed_elapsed_time_amended_witness :
    derivedOptTimeMs routedExample = some (floatToInt ((0.07 : ℚ) * 1000)) :=
  routed_elapsed_time_amended.1 routedExample
    [("pure_quantum_time", JVal.num 0.07), ("successful", JVal.num 3),
     ("total_routes", JVal.num 3)]
    0.07 rfl rfl

/-! ## C3: envelope index set -/

/-- C3, counterexample: with one classical item whose `metrics` field is
malformed and one well-formed quantum item, both backends report index
0, so the claimed intersection is the single index 0, yet the envelope
is empty — a strict subset, so the claimed equality fails. -/
theorem envelope_indices_counterexample :
    emittedIndices csMalformedMetrics qsWellFormed = [] ∧
    List.range (min csMalformedMetrics.length qsWellFormed.length) = [0] := by
  constructor <;> decide

/-- C3 (amended): the set of item indices in the final envelope is
always a subset of the intersection of the index ranges both backends
reported — never a superset, and no item is emitted unless both
backends produced a result at that index — and equals the intersection
exactly when every index-matched pair carries well-formed
`metrics.enhanced` objects. -/
theorem envelope_indices_amended :
    (∀ (cs qs : List JObj) (i : Nat), i ∈ emittedIndices cs qs →
        i < cs.length ∧ i < qs.length) ∧
    (∀ cs qs : List JObj,
        (∀ i, i < min cs.length qs.length →
            (perGraphEntry (cs.getD i []) (qs.getD i [])).isSome = true) →
        emittedIndices cs qs = List.range (min cs.length qs.length)) := by
  constructor
  · intro cs qs i h
    have hr : i ∈ List.range (min cs.length qs.length) := List.mem_of_mem_filter h
    rw [List.mem_range] at hr
    exact ⟨lt_of_lt_of_le hr (min_le_left _ _), lt_of_lt_of_le hr (min_le_right _ _)⟩
  · intro cs qs h
    unfold emittedIndices
    rw [List.filter_eq_self]
    intro a ha
    exact h a (List.mem_range.mp ha)

/-- C3, witness: with one well-formed item on each side the envelope
carries exactly the common index 0. -/
theorem envelope_indices_amended_witness :
    emittedIndices [cPair100] [qPair50] =
      List.range (min ([cPair100] : List JObj).length ([qPair50] : List JObj).length) :=
  envelope_indices_amended.2 [cPair100] [qPair50] (by decide)

/-! ## C4: upload size ceiling -/

/-- C4, counterexample: a 70 MiB `.csv` upload passes every check of the
validation sequence and reaches the temporary-file write and the solver
launches — it is not rejected, because no size comparison exists; the
`64 << 20` argument of the multipart parse is a memory-spill threshold,
not a ceiling. -/
theorem upload_size_counterexample :
    intakeCheck bigUpload = IntakeResult.accepted ∧
    64 * 1024 * 1024 < bigUpload.sizeBytes ∧
    processEffects bigUpload = [ProcessEffect.tempWrite, ProcessEffect.solverLaunch] := by
  refine ⟨by decide, by decide, by decide⟩

/-- C4 (amended): the validation sequence is independent of the payload
size (so an oversize upload is not rejected); rejections — wrong method,
unparseable form, missing file field, extension outside {.csv, .txt} —
do occur before any temporary-file write or solver launch, and an
accepted request always carries an allowed extension. -/
theorem upload_size_amended :
    (∀ (r : UploadRequest) (n m : Nat),
        intakeCheck { r with sizeBytes := n } = intakeCheck { r with sizeBytes := m }) ∧
    (∀ r : UploadRequest, intakeCheck r ≠ .accepted → processEffects r = []) ∧
    (∀ r : UploadRequest, intakeCheck r = .accepted →
        (filepathExt r.filename = ".csv" ∨ filepathExt r.filename = ".txt") ∧
        r.methodPost = true ∧ r.formParseOk = true ∧ r.fileFieldPresent = true) := by
  refine ⟨?_, ?_, ?_⟩
  · intro r n m
    cases r
    rfl
  · intro r h
    unfold processEffects
    cases heq : intakeCheck r <;> simp_all
  · intro r h
    unfold intakeCheck at h
    split_ifs at h with h1 h2 h3 h4
    have hb1 : r.methodPost = true := by simpa using h1
    have hb2 : r.formParseOk = true := by simpa using h2
    have hb3 : r.fileFieldPresent = true := by simpa using h3
    refine ⟨?_, hb1, hb2, hb3⟩
    by_cases hcsv : filepathExt r.filename = ".csv"
    · exact Or.inl hcsv
    · right
      rcases not_and_or.mp h4 with hc | ht
      · exact absurd (not_not.mp hc) hcsv
      · exact not_not.mp ht

/-- C4, witness: size-independence of validation at the 70 MiB upload,
and absence of effects for a rejected extension. -/
theorem upload_size_amended_witness :
    intakeCheck { bigUpload with sizeBytes := 0 } =
      intakeCheck { bigUpload with sizeBytes := 73400320 } ∧
    processEffects { bigUpload with filename := "data.exe" } = [] :=
  ⟨upload_size_amended.1 bigUpload 0 73400320,
   upload_size_amended.2.1 { bigUpload with filename := "data.exe" } (by decide)⟩

/-! ## C5: artifact handle freshness -/

/-- C5, counterexample: `genID` is a pure function of the clock reading,
so two put operations in the same nanosecond receive the identical
handle, the second store overwrites the first, and the first artifact is
no longer retrievable under its own handle — refuting fresh, mutually
distinct, non-predictable handles for same-instant requests. -/
theorem artifact_handles_counterexample :
    genID 123 = genID 123 ∧
    storeLoad (storeStore (storeStore [] (genID 123) { Name := "a.csv", Data := [1] })
        (genID 123) { Name := "b.csv", Data := [2] }) (genID 123) =
      some { Name := "b.csv", Data := [2] } ∧
    storeLoad (storeStore (storeStore [] (genID 123) { Name := "a.csv", Data := [1] })
        (genID 123) { Name := "b.csv", Data := [2] }) (genID 123) ≠
      some { Name := "a.csv", Data := [1] } := by
  refine ⟨rfl, by decide, by decide⟩

/-- C5 (amended): handles are derived solely from the wall-clock
nanosecond timestamp (no entropy, hence predictable and colliding within
one nanosecond); whenever two put operations receive distinct rendered
timestamps, both artifacts remain independently retrievable under their
own handles. -/
theorem artifact_handles_amended :
    ∀ (s : ArtifactStore) (t₁ t₂ : Int) (r₁ r₂ : csvRecord),
      genID t₁ ≠ genID t₂ →
      storeLoad (storeStore (storeStore s (genID t₁) r₁) (genID t₂) r₂) (genID t₁) = some r₁ ∧
      storeLoad (storeStore (storeStore s (genID t₁) r₁) (genID t₂) r₂) (genID t₂) = some r₂ := by
  intro s t₁ t₂ r₁ r₂ h
  constructor
  · rw [storeLoad_storeStore_other _ _ _ _ h, storeLoad_storeStore_self]
  · exact storeLoad_storeStore_self _ _ _

/-- C5, witness: the amended theorem at two distinct clock readings. -/
theorem artifact_handles_amended_witness :
    storeLoad (storeStore (storeStore [] (genID 1) { Name := "a.csv", Data := [1] })
        (genID 2) { Name := "b.csv", Data := [2] }) (genID 1) =
      some { Name := "a.csv", Data := [1] } ∧
    storeLoad (storeStore (storeStore [] (genID 1) { Name := "a.csv", Data := [1] })
        (genID 2) { Name := "b.csv", Data := [2] }) (genID 2) =
      some { Name := "b.csv", Data := [2] } :=
  artifact_handles_amended [] 1 2 { Name := "a.csv", Data := [1] }
    { Name := "b.csv", Data := [2] } (by decide)

/-! ## C6: store roundtrip and unknown handles -/

/-- C6, counterexample: the empty string is a handle that was never
issued (every issued handle is a rendered timestamp), yet `/download`
answers it with 400 BadRequest before any lookup, not with the 404
NotFound the claim asserts for every never-issued handle. -/
theorem store_roundtrip_counterexample :
    download [("123", { Name := "a.csv", Data := [7] })] "" = DownloadResult.badReq ∧
    DownloadResult.badReq ≠ DownloadResult.notFound := by
  refine ⟨rfl, by decide⟩

/-- C6 (amended): a put followed by a get with the returned handle
yields exactly the stored name and bytes; a get with a handle absent
from the store returns NotFound — except the empty handle, rejected as
BadRequest before lookup — never throws, and whenever bytes are
returned they are exactly the record stored under that very handle,
never another artifact's. -/
theorem store_roundtrip_amended :
    (∀ (s : ArtifactStore) (k : String) (v : csvRecord),
        storeLoad (storeStore s k v) k = some v) ∧
    (∀ (s : ArtifactStore) (k : String) (v : csvRecord), k ≠ "" →
        download (storeStore s k v) k = .okFile v.Name v.Data) ∧
    (∀ (s : ArtifactStore) (hd : String), storeLoad s hd = none →
        download s hd = .badReq ∨ download s hd = .notFound) ∧
    (∀ (s : ArtifactStore) (hd n : String) (d : List Nat),
        download s hd = .okFile n d →
        ∃ rec, storeLoad s hd = some rec ∧ rec.Name = n ∧ rec.Data = d) := by
  refine ⟨storeLoad_storeStore_self, ?_, ?_, ?_⟩
  · intro s k v hk
    rw [download, if_neg hk, storeLoad_storeStore_self]
  · intro s hd h
    unfold download
    split
    · exact Or.inl rfl
    · rw [h]
      exact Or.inr rfl
  · intro s hd n d h
    unfold download at h
    split at h
    · exact absurd h (by simp)
    · split at h
      · exact absurd h (by simp)
      · next rec heq =>
          refine ⟨rec, heq, ?_, ?_⟩ <;> cases h <;> rfl

/-- C6, witness: roundtrip through the store and the handler at a
concrete nonempty handle, and NotFound for an unknown one. -/
theorem store_roundtrip_amended_witness :
    download (storeStore [] "77" { Name := "x.csv", Data := [3, 4] }) "77" =
      DownloadResult.okFile "x.csv" [3, 4] ∧
    (download ([] : ArtifactStore) "99" = DownloadResult.badReq ∨
      download ([] : ArtifactStore) "99" = DownloadResult.notFound) :=
  ⟨store_roundtrip_amended.2.1 [] "77" { Name := "x.csv", Data := [3, 4] } (by decide),
   store_roundtrip_amended.2.2.1 [] "99" rfl⟩

/-! ## C7: delta and speedup of a matched pair -/

/-- C7 (confirmed): every emitted comparison entry carries
`delta_ms = quantum opt_time_ms − classical opt_time_ms` (signed) and
`quantum_speedup = speedup(classical, quantum)`; in particular for a
classical time of 100 ms and a quantum time of 50 ms the entry has
delta −50 and speedup 2. -/
theorem compare_delta_speedup :
    (∀ (c q : JObj) (e : GraphEntry), perGraphEntry c q = some e →
      ∃ cm qm ce qe,
        asObj (jlookup c "metrics") = some cm ∧ asObj (jlookup q "metrics") = some qm ∧
        asObj (jlookup cm "enhanced") = some ce ∧ asObj (jlookup qm "enhanced") = some qe ∧
        e.deltaMs = intFromAny (jlookup qe "opt_time_ms") - intFromAny (jlookup ce "opt_time_ms") ∧
        e.quantumSpeedup =
          speedup (intFromAny (jlookup ce "opt_time_ms")) (intFromAny (jlookup qe "opt_time_ms"))) ∧
    (∃ e, perGraphEntry cPair100 qPair50 = some e ∧
        e.deltaMs = -50 ∧ e.quantumSpeedup = 2) := by
  constructor
  · intro c q e h
    unfold perGraphEntry at h
    rw [Option.bind_eq_some] at h
    obtain ⟨cm, hcm, h⟩ := h
    rw [Option.bind_eq_some] at h
    obtain ⟨qm, hqm, h⟩ := h
    rw [Option.bind_eq_some] at h
    obtain ⟨ce, hce, h⟩ := h
    rw [Option.map_eq_some'] at h
    obtain ⟨qe, hqe, h⟩ := h
    exact ⟨cm, qm, ce, qe, hcm, hqm, hce, hqe, by rw [← h], by rw [← h]⟩
  · have h100 : intFromAny (JVal.num 100) = (100 : ℤ) := intFromAny_num _ _ (by norm_num)
    have h50 : intFromAny (JVal.num 50) = (50 : ℤ) := intFromAny_num _ _ (by norm_num)
    refine ⟨cqEntry, ?_, ?_, ?_⟩
    · simp [perGraphEntry, cPair100, qPair50, jlookup, asObj, cqEntry]
    · simp only [cqEntry, h100, h50]
      norm_num
    · simp only [cqEntry, h100, h50]
      norm_num [speedup]

/-- C7, witness: the general clause applied to the concrete matched
pair with classical 100 ms and quantum 50 ms. -/
theorem compare_delta_speedup_witness :
    ∃ cm qm ce qe,
      asObj (jlookup cPair100 "metrics") = some cm ∧
      asObj (jlookup qPair50 "metrics") = some qm ∧
      asObj (jlookup cm "enhanced") = some ce ∧ asObj (jlookup qm "enhanced") = some qe ∧
      cqEntry.deltaMs =
        intFromAny (jlookup qe "opt_time_ms") - intFromAny (jlookup ce "opt_time_ms") ∧
      cqEntry.quantumSpeedup =
        speedup (intFromAny (jlookup ce "opt_time_ms")) (intFromAny (jlookup qe "opt_time_ms")) :=
  compare_delta_speedup.1 cPair100 qPair50 cqEntry
    (by simp [perGraphEntry, cPair100, qPair50, jlookup, asObj, cqEntry])

/-! ## C8: stdout and stderr separation -/

/-- C8 (confirmed): in every revision the structured payload handed to
the JSON parser is exactly the subprocess's stdout bytes — the result of
`runPython` is invariant under any change of the stderr bytes, and the
payload returned on success is the stdout, never concatenated with
diagnostic text. -/
theorem stdout_stderr_separation :
    (∀ e₁ e₂ : PyExec, e₁.stdoutData = e₂.stdoutData → e₁.exitOk = e₂.exitOk →
        runPythonHybrid e₁ = runPythonHybrid e₂ ∧ runPythonSplit e₁ = runPythonSplit e₂) ∧
    (∀ e : PyExec, runPythonSplit e = (e.stdoutData, e.exitOk)) ∧
    (∀ e : PyExec, e.exitOk = true → runPythonHybrid e = some e.stdoutData) := by
  refine ⟨?_, fun e => rfl, ?_⟩
  · intro e₁ e₂ hout hok
    constructor
    · rw [runPythonHybrid, runPythonHybrid, hout, hok]
    · rw [runPythonSplit, runPythonSplit, hout, hok]
  · intro e h
    rw [runPythonHybrid, if_pos h]

/-- C8, witness: two executions with identical stdout and exit status
but different stderr yield identical payloads. -/
theorem stdout_stderr_separation_witness :
    runPythonHybrid { stdoutData := [1, 2], stderrData := [9, 9], exitOk := true } =
      runPythonHybrid { stdoutData := [1, 2], stderrData := [], exitOk := true } ∧
    runPythonSplit { stdoutData := [1, 2], stderrData := [9, 9], exitOk := true } =
      runPythonSplit { stdoutData := [1, 2], stderrData := [], exitOk := true } :=
  stdout_stderr_separation.1
    { stdoutData := [1, 2], stderrData := [9, 9], exitOk := true }
    { stdoutData := [1, 2], stderrData := [], exitOk := true } rfl rfl

/-! ## C9: backend failure responses -/

/-- C9, counterexample: a decode failure is answered with HTTP 500 — not
a client error — and a fixed message that surfaces neither diagnostic
text nor partial structured output; the single-runner revision answers
even a nonzero exit with HTTP 500 and the fixed body
"Python script failed". -/
theorem backend_failure_response_counterexample :
    processBackendPhase "raw classical stdout" true "raw quantum stdout" true false true =
      HttpReply.reply 500 "Failed to parse classical results" ∧
    isClientError 500 = false ∧
    processBackendPhaseHybrid false true = HttpReply.reply 500 "Python script failed" ∧
    isClientError 400 = true := by
  refine ⟨rfl, by decide, rfl, by decide⟩

/-- C9 (amended): in revision B a nonzero solver exit aborts the request
with HTTP 400 (a client error) whose body is that backend's captured
stdout — the partial structured output; a decode failure aborts the
request with HTTP 500 and a fixed parse-failure message; in every
failure case the request is aborted and no envelope is produced. -/
theorem backend_failure_response_amended :
    (∀ (oc oq : String) (b cp qp : Bool),
        processBackendPhase oc false oq b cp qp = HttpReply.reply 400 oc) ∧
    (∀ (oc oq : String) (cp qp : Bool),
        processBackendPhase oc true oq false cp qp = HttpReply.reply 400 oq) ∧
    (∀ (oc oq : String) (qp : Bool),
        processBackendPhase oc true oq true false qp =
          HttpReply.reply 500 "Failed to parse classical results") ∧
    (∀ oc oq : String,
        processBackendPhase oc true oq true true false =
          HttpReply.reply 500 "Failed to parse quantum results") ∧
    (∀ (oc oq : String) (cOk qOk cp qp : Bool),
        processBackendPhase oc cOk oq qOk cp qp = HttpReply.proceed →
        cOk = true ∧ qOk = true ∧ cp = true ∧ qp = true) ∧
    isClientError 400 = true := by
  refine ⟨fun oc oq b cp qp => rfl, fun oc oq cp qp => rfl, fun oc oq qp => rfl,
    fun oc oq => rfl, ?_, by decide⟩
  intro oc oq cOk qOk cp qp h
  unfold processBackendPhase at h
  split_ifs at h with h1 h2 h3 h4
  exact ⟨by simpa using h1, by simpa using h2, by simpa using h3, by simpa using h4⟩

/-- C9, witness: the abort clause applied to a fully successful phase. -/
theorem backend_failure_response_amended_witness :
    true = true ∧ true = true ∧ true = true ∧ true = true :=
  backend_failure_response_amended.2.2.2.2.1 "co" "qo" true true true true rfl

/-! ## C10: empty submission handle -/

/-- C10 (confirmed): the downloads map of the final response always
contains the key `submission_csv`; when the backend emitted no CSV or
its base64 content failed to decode, the mapped handle is the empty
string and the store is unchanged, and a GET of `/download` with the
empty handle is rejected as BadRequest before any lookup — it never
returns artifact bytes. -/
theorem downloads_empty_handle :
    (∀ id : String, ("submission_csv", id) ∈ downloadsMap id) ∧
    (∀ (s : ArtifactStore) (b64 : String) (dec : Option (List Nat))
        (csvName : String) (now : Int), b64 = "" ∨ dec = none →
        (storeSubmission s b64 dec csvName now).2 = "" ∧
        (storeSubmission s b64 dec csvName now).1 = s) ∧
    (∀ s : ArtifactStore, download s "" = DownloadResult.badReq) ∧
    (∀ (s : ArtifactStore) (n : String) (d : List Nat),
        download s "" ≠ DownloadResult.okFile n d) := by
  refine ⟨?_, ?_, fun s => rfl, ?_⟩
  · intro id
    simp [downloadsMap]
  · intro s b64 dec csvName now h
    rcases h with h | h
    · constructor <;> simp [storeSubmission, h]
    · by_cases hb : b64 = "" <;> constructor <;> simp [storeSubmission, hb, h]
  · intro s n d h
    have : download s "" = DownloadResult.badReq := rfl
    rw [this] at h
    exact absurd h (by simp)

/-- C10, witness: the empty-handle clause evaluated on a concrete
failed decode, and the BadRequest behaviour of `/download`. -/
theorem downloads_empty_handle_witness :
    ((storeSubmission [] "QUJD" none "x.csv" 5).2 = "" ∧
      (storeSubmission [] "QUJD" none "x.csv" 5).1 = []) ∧
    download ([("9", { Name := "a.csv", Data := [1] })] : ArtifactStore) "" =
      DownloadResult.badReq :=
  ⟨downloads_empty_handle.2.1 [] "QUJD" none "x.csv" 5 (Or.inr rfl),
   downloads_empty_handle.2.2.1 [("9", { Name := "a.csv", Data := [1] })]⟩
